import Mathlib

/-!
Shallow embedding of the pull-request orchestration core of geomodulus/robots
(package `github`: github.go, articles.go and their refactored variants), with
theorems settling the spec claims about it.

External collaborators (the GitHub API client and the prettier formatter) are
modelled as oracles: records of pure response functions.  Every function below
is translated from the Go source; network calls are logged in an explicit
trace so that claims about which calls are (not) issued can be stated.
-/

namespace Robots

/-- One error item inside a `gh.ErrorResponse` (`gh.Error`: fields Code, Message). -/
structure ErrorItem where
  code : String
  message : String
deriving DecidableEq

/-- An error returned by `PullRequests.Create`: either a `*gh.ErrorResponse`
(the type-assertion `err.(*gh.ErrorResponse)` succeeds) or any other error. -/
inductive CreateErr where
  | errorResponse (errors : List ErrorItem)
  | other (msg : String)
deriving DecidableEq

/-- The fields of `gh.PullRequest` the code reads: Number, HTMLURL, State, Head.Ref. -/
structure PullRequest where
  number : Int
  htmlURL : String
  state : String
  headRef : String
deriving DecidableEq

/-- Model of `gh.NewPullRequest` as built by `CreateOrUpdateArticlePullRequest`. -/
structure NewPullRequest where
  title : String
  head : String
  base : String
  body : String
  maintainerCanModify : Bool
deriving DecidableEq

/-- A `gh.Reference`: its name and the SHA of the object it points at. -/
structure Reference where
  ref : String
  sha : String
deriving DecidableEq

/-- A `gh.Commit`, identified by its SHA. -/
structure GitCommit where
  sha : String
deriving DecidableEq

/-- A `gh.Tree` handle as returned by `Git.CreateTree`. -/
structure Tree where
  sha : String
deriving DecidableEq

/-- A `gh.TreeEntry` as built by the article code: path, mode, type, content. -/
structure TreeEntry where
  path : String
  mode : String
  type : String
  content : String
deriving DecidableEq

/-- A `citygraph.Article` as far as this package inspects it: the code only
serializes it with `json.MarshalIndent` (modelled as the opaque string `json`,
the serializer being external) and reads the names of `GeoJSONDatasets`. -/
structure Article where
  json : String
  geoJSONDatasets : List String
deriving DecidableEq

/-- An opaque `geojson.FeatureCollection` handle (result of the external
`geojson.UnmarshalFeatureCollection`). -/
structure FeatureCollection where
  raw : String
deriving DecidableEq

/-- Model of `ArticleCheckout` from articles.go. -/
structure ArticleCheckout where
  slug : String
  article : Option Article
  bodyHTML : String
  javascriptFunction : String
  locationsGeoJSON : Option FeatureCollection
deriving DecidableEq

/-! ### createPRWithRetry (github.go lines 129-154) -/

/-- The race signature tested inside the retry loop of `createPRWithRetry`:
`err.Code == "custom" && err.Message == "No commits between main and "+*newPR.Head`. -/
def raceSignature (head : String) (e : ErrorItem) : Bool :=
  e.code == "custom" && e.message == "No commits between main and " ++ head

/-- The delay slept after attempt `i`:
`math.Min(baseDelay*math.Pow(2, float64(i)), maxDelay)` with base 2 and cap 30.
All values involved are small integers, exactly representable in float64, so
the computation is modelled exactly on naturals (in seconds). -/
def retryDelay (i : Nat) : Nat :=
  min (2 * 2 ^ i) 30

/-- Outcome of `createPRWithRetry`: a created PR, an immediately-fatal error
(`return nil, err`), or retries exhausted (`return nil, fmt.Errorf(...)`). -/
inductive RetryOutcome where
  | ok (pr : PullRequest)
  | fatal (e : CreateErr)
  | exhausted (msg : String)
deriving DecidableEq

/-- The loop of `createPRWithRetry`.  `create i` gives the host response to the
i-th creation attempt.  Returns (outcome, delays slept in seconds, attempts
made).  Faithful to the source: a non-`ErrorResponse` error returns at once;
an `ErrorResponse` sleeps only when some item matches the race signature, and
in every `ErrorResponse` case the loop continues with the next attempt. -/
def retryLoop (create : Nat → Except CreateErr PullRequest) (head : String)
    (maxRetries : Nat) : Nat → Nat → RetryOutcome × List Nat × Nat
  | _, 0 =>
    (.exhausted ("unable to create PR after " ++ toString maxRetries ++ " attempts"), [], 0)
  | i, remaining + 1 =>
    match create i with
    | .ok pr => (.ok pr, [], 1)
    | .error (.other m) => (.fatal (.other m), [], 1)
    | .error (.errorResponse errs) =>
      let slept := if errs.any (raceSignature head) then [retryDelay i] else []
      let rest := retryLoop create head maxRetries (i + 1) remaining
      (rest.1, slept ++ rest.2.1, rest.2.2 + 1)

/-- Model of `createPRWithRetry` (github.go): run the loop from attempt 0. -/
def createPRWithRetry (create : Nat → Except CreateErr PullRequest) (head : String)
    (maxRetries : Nat) : RetryOutcome × List Nat × Nat :=
  retryLoop create head maxRetries 0 maxRetries

/-! ### removeQuotes (github.go lines 156-169) -/

/-- Model of `removeQuotes` on the character list of a Go string: if the length is at
least 2 and the first and last characters are both a double quote or both a
single quote, drop exactly those two; otherwise return the list unchanged.
(The Go code compares bytes, but the compared values are ASCII quotes, whose
byte occurrences coincide with character occurrences in UTF-8.) -/
def removeQuotesList : List Char → List Char
  | [] => []
  | [c] => [c]
  | c :: rest =>
    let lastc := (c :: rest).getLast (by simp)
    if (c = '\x22' ∧ lastc = '\x22') ∨ (c = '\x27' ∧ lastc = '\x27') then
      rest.dropLast
    else
      c :: rest

/-- Model of `removeQuotes` on strings. -/
def removeQuotes (s : String) : String :=
  String.mk (removeQuotesList s.data)

/-! ### The host and formatter oracles -/

/-- The repository-host client consumed by the orchestration, as a record of
pure response functions (an oracle).  `createPR` is indexed by the attempt
number so that successive attempts of the retry loop may receive different
responses. -/
structure Host where
  getRef : String → Except String Reference
  createRef : String → String → Except String Reference
  getPR : Int → Except String PullRequest
  getContents : String → Except String String
  createTree : String → List TreeEntry → Except String Tree
  getCommit : String → Except String GitCommit
  createCommit : String → Tree → List GitCommit → Except String GitCommit
  updateRef : String → String → Except String Reference
  createPR : Nat → NewPullRequest → Except CreateErr PullRequest
  requestReviewers : Int → List String → Except String Unit

/-- One network call issued to the host, with the request data the code sends. -/
inductive Call where
  | getRef (ref : String)
  | createRef (ref : String) (sha : String)
  | getPR (num : Int)
  | getContents (path : String)
  | createTree (baseSHA : String) (entries : List TreeEntry)
  | getCommit (sha : String)
  | createCommit (message : String) (tree : Tree) (parents : List GitCommit)
  | updateRef (ref : String) (sha : String)
  | createPR (npr : NewPullRequest)
  | requestReviewers (num : Int) (reviewers : List String)
deriving DecidableEq

/-- The external ContentFormatter `prettier.Format(code, filePath)`. -/
def Formatter : Type :=
  String → String → Except String String

/-- Rendering of an error from `PullRequests.Create` into the message text used
by `fmt.Errorf("error creating PR: %v", err)`.  The exact `Error()` rendering
of `*gh.ErrorResponse` lives in the external SDK and is abstracted here; no
claim depends on its text. -/
def createErrMsg : CreateErr → String
  | .other m => m
  | .errorResponse errs => "github error response with " ++ toString errs.length ++ " errors"

/-! ### PullRequestParams and the option functions (github.go lines 33-106) -/

/-- Model of `PullRequestParams` from github.go. -/
structure PullRequestParams where
  article : Option Article
  place : Option String
  bodyHTML : String
  articleJS : String
  locations : String
  prTitle : String
  prBody : String
  prNum : Int
  teaserGeoJSON : String
  teaserJS : String
deriving DecidableEq

/-- The `PullRequestOption` functions of github.go, as first-class data: each
constructor is one of the `With...` builders, and `applyOption` is its effect
on the params struct. -/
inductive PullRequestOption where
  | withArticle (a : Article)
  | withPlace (p : String)
  | withBodyHTML (s : String)
  | withArticleJS (s : String)
  | withLocations (s : String)
  | withPRNum (n : Int)
  | withPRTitle (s : String)
  | withPRBody (s : String)
  | withTeaserGeoJSON (s : String)
  | withTeaserJS (s : String)
deriving DecidableEq

/-- Effect of one option function on the params struct. -/
def applyOption (p : PullRequestParams) : PullRequestOption → PullRequestParams
  | .withArticle a => { p with article := some a }
  | .withPlace pl => { p with place := some pl }
  | .withBodyHTML s => { p with bodyHTML := s }
  | .withArticleJS s => { p with articleJS := s }
  | .withLocations s => { p with locations := s }
  | .withPRNum n => { p with prNum := n }
  | .withPRTitle s => { p with prTitle := s }
  | .withPRBody s => { p with prBody := s }
  | .withTeaserGeoJSON s => { p with teaserGeoJSON := s }
  | .withTeaserJS s => { p with teaserJS := s }

/-- The params value `CreateOrUpdateArticlePullRequest` starts from: Go zero
values for every field except the defaulted PR body. -/
def initParams : PullRequestParams :=
  { article := none, place := none, bodyHTML := "", articleJS := "", locations := ""
    prTitle := "", prBody := "This PR was created dynamically.", prNum := 0
    teaserGeoJSON := "", teaserJS := "" }

/-- Model of the params initialization and option fold at the top of
`CreateOrUpdateArticlePullRequest`: start from the defaulted params and apply
each option function in order. -/
def buildParams (opts : List PullRequestOption) : PullRequestParams :=
  opts.foldl applyOption initParams

/-- The `gh.NewPullRequest` literal built in `CreateOrUpdateArticlePullRequest`
(articles.go lines 285-291), with `Head` the resolved branch ref name. -/
def newPRFor (params : PullRequestParams) (headRef : String) : NewPullRequest :=
  { title := params.prTitle, head := headRef, base := "main"
    body := params.prBody, maintainerCanModify := true }

/-! ### newBranchRef (github.go lines 108-127) and branch resolution -/

/-- Model of `newBranchRef`: fetch main's head, create a timestamp-named branch at that
commit.  `now` stands for `time.Now().Format("20060102-150405")`.  Returns the
result together with the trace of host calls issued. -/
def newBranchRef (host : Host) (now : String) : Except String Reference × List Call :=
  match host.getRef "refs/heads/main" with
  | .error e => (.error ("error getting reference: " ++ e), [.getRef "refs/heads/main"])
  | .ok ref =>
    match host.createRef ("refs/heads/" ++ ("scottie-" ++ now)) ref.sha with
    | .error e =>
      (.error ("error creating reference: " ++ e),
       [.getRef "refs/heads/main", .createRef ("refs/heads/" ++ ("scottie-" ++ now)) ref.sha])
    | .ok newRef =>
      (.ok newRef,
       [.getRef "refs/heads/main", .createRef ("refs/heads/" ++ ("scottie-" ++ now)) ref.sha])

/-- Branch resolution of `CreateOrUpdateArticlePullRequest` (articles.go lines
111-137): no PR number means a fresh branch; an existing number is fetched, a
closed PR falls back to a fresh branch, an open PR has its head ref fetched
and becomes the active PR. -/
def resolveBranch (host : Host) (now : String) (prNum : Int) :
    Except String (Reference × Option PullRequest) × List Call :=
  if prNum = 0 then
    match newBranchRef host now with
    | (.error e, calls) => (.error ("error creating new branch: " ++ e), calls)
    | (.ok r, calls) => (.ok (r, none), calls)
  else
    match host.getPR prNum with
    | .error e => (.error ("error getting PR: " ++ e), [.getPR prNum])
    | .ok pr =>
      if pr.state = "closed" then
        match newBranchRef host now with
        | (.error e, calls) => (.error ("error creating new branch: " ++ e), .getPR prNum :: calls)
        | (.ok r, calls) => (.ok (r, none), .getPR prNum :: calls)
      else
        match host.getRef ("refs/heads/" ++ pr.headRef) with
        | .error e => (.error e, [.getPR prNum, .getRef ("refs/heads/" ++ pr.headRef)])
        | .ok r => (.ok (r, some pr), [.getPR prNum, .getRef ("refs/heads/" ++ pr.headRef)])

/-! ### The change-set build (articles.go lines 139-254, inline) -/

/-- The fixed placeholder content committed as `locations.js`
(articles.go line 242). -/
def locationsPlaceholder : String :=
  "console.debug(\x27locations.js\x27);"

/-- Locations step of the build (articles.go lines 225-254): the derived pair
`locations.geojson` + placeholder `locations.js`, guarded by
`params.Article != nil && params.Locations != ""` and by the first GeoJSON
dataset being named "locations". -/
def buildLocationsStep (fmtO : Formatter) (slug : String) (params : PullRequestParams)
    (acc : List TreeEntry) : Except String (List TreeEntry) :=
  match params.article with
  | none => .ok acc
  | some a =>
    if params.locations ≠ "" ∧ a.geoJSONDatasets.head? = some "locations" then
      let locPath := "articles/" ++ slug ++ "/locations.geojson"
      match fmtO params.locations locPath with
      | .error e => .error ("error formatting javascript: " ++ e)
      | .ok pretty =>
        let locJSPath := "articles/" ++ slug ++ "/locations.js"
        match fmtO locationsPlaceholder locJSPath with
        | .error e => .error ("error formatting javascript: " ++ e)
        | .ok prettyJS =>
          .ok (acc ++ [⟨locPath, "100644", "blob", pretty⟩,
                       ⟨locJSPath, "100644", "blob", prettyJS⟩])
    else .ok acc

/-- Teaser-JS step of the build (articles.go lines 210-223). -/
def buildTeaserJSStep (fmtO : Formatter) (slug : String) (params : PullRequestParams)
    (acc : List TreeEntry) : Except String (List TreeEntry) :=
  if params.teaserJS ≠ "" then
    let tjsPath := "articles/" ++ slug ++ "/teaser.js"
    match fmtO params.teaserJS tjsPath with
    | .error e => .error ("error formatting javascript: " ++ e)
    | .ok pretty =>
      buildLocationsStep fmtO slug params (acc ++ [⟨tjsPath, "100644", "blob", pretty⟩])
  else buildLocationsStep fmtO slug params acc

/-- Teaser-GeoJSON step of the build (articles.go lines 195-208). -/
def buildTeaserGeoStep (fmtO : Formatter) (slug : String) (params : PullRequestParams)
    (acc : List TreeEntry) : Except String (List TreeEntry) :=
  if params.teaserGeoJSON ≠ "" then
    let geoPath := "articles/" ++ slug ++ "/teaser.geojson"
    match fmtO params.teaserGeoJSON geoPath with
    | .error e => .error ("error formatting javascript: " ++ e)
    | .ok pretty =>
      buildTeaserJSStep fmtO slug params (acc ++ [⟨geoPath, "100644", "blob", pretty⟩])
  else buildTeaserJSStep fmtO slug params acc

/-- Article-JS step of the build (articles.go lines 179-193); its error message
attaches the offending JavaScript. -/
def buildArticleJSStep (fmtO : Formatter) (slug : String) (params : PullRequestParams)
    (acc : List TreeEntry) : Except String (List TreeEntry) :=
  if params.articleJS ≠ "" then
    let jsPath := "articles/" ++ slug ++ "/article.js"
    match fmtO params.articleJS jsPath with
    | .error e =>
      .error ("error formatting javascript: " ++ e ++ "\n\noffending JS:\n" ++ params.articleJS)
    | .ok pretty =>
      buildTeaserGeoStep fmtO slug params (acc ++ [⟨jsPath, "100644", "blob", pretty⟩])
  else buildTeaserGeoStep fmtO slug params acc

/-- Body-HTML step of the build (articles.go lines 161-177); its error message
attaches the offending HTML. -/
def buildHTMLStep (fmtO : Formatter) (slug : String) (params : PullRequestParams)
    (acc : List TreeEntry) : Except String (List TreeEntry) :=
  if params.bodyHTML ≠ "" then
    let htmlPath := "articles/" ++ slug ++ "/article.html"
    match fmtO params.bodyHTML htmlPath with
    | .error e =>
      .error ("error formatting html: " ++ e ++ "\n\noffending html:\n" ++ params.bodyHTML)
    | .ok pretty =>
      buildArticleJSStep fmtO slug params (acc ++ [⟨htmlPath, "100644", "blob", pretty⟩])
  else buildArticleJSStep fmtO slug params acc

/-- The tree-entry build of `CreateOrUpdateArticlePullRequest` (articles.go
lines 139-254): one entry per present artifact, in source order, each content
run through the formatter, with the exact error strings of the source.  The
article-JSON content is the article's `json.MarshalIndent` output. -/
def buildTreeEntries (fmtO : Formatter) (slug : String) (params : PullRequestParams) :
    Except String (List TreeEntry) :=
  match params.article with
  | some a =>
    let jsonPath := "articles/" ++ slug ++ "/article.json"
    match fmtO a.json jsonPath with
    | .error e => .error ("error formatting json: " ++ e)
    | .ok pretty => buildHTMLStep fmtO slug params [⟨jsonPath, "100644", "blob", pretty⟩]
  | none => buildHTMLStep fmtO slug params []

/-! ### Commit and PR phase (articles.go lines 256-307) -/

/-- The PR-creation tail of the orchestration (articles.go lines 283-305):
when no active PR was fetched, create one with retry, then request the fixed
reviewer; any active PR short-circuits both.  Returns the Go result triple
`(number, url, error)` and the trace of host calls. -/
def finishPR (host : Host) (params : PullRequestParams) (prBranchRef : Reference)
    (activePR : Option PullRequest) : (Int × String × Option String) × List Call :=
  match activePR with
  | some pr => ((pr.number, pr.htmlURL, none), [])
  | none =>
    let newPR := newPRFor params prBranchRef.ref
    let retried := createPRWithRetry (fun i => host.createPR i newPR) newPR.head 10
    let prCalls := List.replicate retried.2.2 (Call.createPR newPR)
    match retried.1 with
    | .fatal e => ((0, "", some ("error creating PR: " ++ createErrMsg e)), prCalls)
    | .exhausted msg => ((0, "", some ("error creating PR: " ++ msg)), prCalls)
    | .ok created =>
      match host.requestReviewers created.number ["chrisdinn"] with
      | .error e =>
        ((0, "", some ("error requesting reviewers: " ++ e)),
         prCalls ++ [.requestReviewers created.number ["chrisdinn"]])
      | .ok _ =>
        ((created.number, created.htmlURL, none),
         prCalls ++ [.requestReviewers created.number ["chrisdinn"]])

/-- The commit phase of the orchestration (articles.go lines 256-281) followed
by `finishPR`: build the entries, create the tree on the branch's base SHA,
fetch the parent commit, create the commit and advance the branch ref to it. -/
def commitAndPR (host : Host) (fmtO : Formatter) (slug : String)
    (params : PullRequestParams) (prBranchRef : Reference) (activePR : Option PullRequest) :
    (Int × String × Option String) × List Call :=
  match buildTreeEntries fmtO slug params with
  | .error e => ((0, "", some e), [])
  | .ok treeEntries =>
    let baseSHA := prBranchRef.sha
    match host.createTree baseSHA treeEntries with
    | .error e =>
      ((0, "", some ("error creating tree: " ++ e)), [.createTree baseSHA treeEntries])
    | .ok tree =>
      match host.getCommit baseSHA with
      | .error e =>
        ((0, "", some ("error getting commit: " ++ e)),
         [.createTree baseSHA treeEntries, .getCommit baseSHA])
      | .ok parentCommit =>
        match host.createCommit params.prTitle tree [parentCommit] with
        | .error e =>
          ((0, "", some ("error creating commit: " ++ e)),
           [.createTree baseSHA treeEntries, .getCommit baseSHA,
            .createCommit params.prTitle tree [parentCommit]])
        | .ok commit =>
          match host.updateRef prBranchRef.ref commit.sha with
          | .error e =>
            ((0, "", some ("error updating reference: " ++ e)),
             [.createTree baseSHA treeEntries, .getCommit baseSHA,
              .createCommit params.prTitle tree [parentCommit],
              .updateRef prBranchRef.ref commit.sha])
          | .ok _ =>
            let fin := finishPR host params prBranchRef activePR
            (fin.1,
             [.createTree baseSHA treeEntries, .getCommit baseSHA,
              .createCommit params.prTitle tree [parentCommit],
              .updateRef prBranchRef.ref commit.sha] ++ fin.2)

/-- Model of `CreateOrUpdateArticlePullRequest` (articles.go lines 97-307): apply the
option functions to the defaulted params, resolve the branch, then commit and
create or reuse the pull request.  Returns the Go `(int, string, error)`
result and the full trace of host calls. -/
def createOrUpdateArticlePullRequest (host : Host) (fmtO : Formatter) (now : String)
    (slug : String) (opts : List PullRequestOption) :
    (Int × String × Option String) × List Call :=
  let params := buildParams opts
  match resolveBranch host now params.prNum with
  | (.error e, calls) => ((0, "", some e), calls)
  | (.ok (prBranchRef, activePR), calls) =>
    let rest := commitAndPR host fmtO slug params prBranchRef activePR
    (rest.1, calls ++ rest.2)

/-! ### The refactored build: treeEntriesFromParams and its helpers
(the variant article file, src/unnamed/part_002 lines 252-419, with the
`Params` struct of src/unnamed/part_004) -/

/-- Model of `Params` of the refactored variant (adds InArchive and CommitMessage). -/
structure Params where
  inArchive : Bool
  article : Option Article
  place : Option String
  bodyHTML : String
  articleJS : String
  locations : String
  commitMessage : String
  prTitle : String
  prBody : String
  prNum : Int
  teaserGeoJSON : String
  teaserJS : String
deriving DecidableEq

/-- Model of `articleTreeEntry` (part_002 lines 313-331). -/
def articleTreeEntry (fmtO : Formatter) (path : String) (article : Article) :
    Except String TreeEntry :=
  let jsonPath := path ++ "/article.json"
  match fmtO article.json jsonPath with
  | .error e => .error ("error formatting json: " ++ e)
  | .ok pretty => .ok ⟨jsonPath, "100644", "blob", pretty⟩

/-- Model of `articleBodyHTML` (part_002 lines 333-345); attaches the offending HTML. -/
def articleBodyHTML (fmtO : Formatter) (path : String) (bodyHTML : String) :
    Except String TreeEntry :=
  let htmlPath := path ++ "/article.html"
  match fmtO bodyHTML htmlPath with
  | .error e => .error ("error formatting html: " ++ e ++ "\n\noffending html:\n" ++ bodyHTML)
  | .ok pretty => .ok ⟨htmlPath, "100644", "blob", pretty⟩

/-- Model of `articleJS` (part_002 lines 347-359); attaches the offending JavaScript. -/
def articleJS (fmtO : Formatter) (path : String) (js : String) :
    Except String TreeEntry :=
  let jsPath := path ++ "/article.js"
  match fmtO js jsPath with
  | .error e =>
    .error ("error formatting javascript: " ++ e ++ "\n\noffending javascript:\n" ++ js)
  | .ok pretty => .ok ⟨jsPath, "100644", "blob", pretty⟩

/-- Model of `articleTeaserGeoJSON` (part_002 lines 361-373). -/
def articleTeaserGeoJSON (fmtO : Formatter) (path : String) (geoJSON : String) :
    Except String TreeEntry :=
  let geoJSONPath := path ++ "/teaser.geojson"
  match fmtO geoJSON geoJSONPath with
  | .error e => .error ("error formatting javascript: " ++ e)
  | .ok pretty => .ok ⟨geoJSONPath, "100644", "blob", pretty⟩

/-- Model of `articleTeaserJS` (part_002 lines 375-387). -/
def articleTeaserJS (fmtO : Formatter) (path : String) (js : String) :
    Except String TreeEntry :=
  let jsPath := path ++ "/teaser.js"
  match fmtO js jsPath with
  | .error e => .error ("error formatting javascript: " ++ e)
  | .ok pretty => .ok ⟨jsPath, "100644", "blob", pretty⟩

/-- Model of `articleGeoJSONDatasets` (part_002 lines 389-419): the locations file and
its fixed placeholder sibling. -/
def articleGeoJSONDatasets (fmtO : Formatter) (path : String) (locations : String) :
    Except String (List TreeEntry) :=
  let locDatasetPath := path ++ "/locations.geojson"
  match fmtO locations locDatasetPath with
  | .error e => .error ("error formatting javascript: " ++ e)
  | .ok pretty =>
    let locDatasetJSPath := path ++ "/locations.js"
    match fmtO locationsPlaceholder locDatasetJSPath with
    | .error e => .error ("error formatting javascript: " ++ e)
    | .ok prettyJS =>
      .ok [⟨locDatasetPath, "100644", "blob", pretty⟩,
           ⟨locDatasetJSPath, "100644", "blob", prettyJS⟩]

/-- Model of `treeEntriesFromParams` (part_002 lines 252-311): one entry per present
artifact, helpers in source order, each error wrapped with its context; the
locations pair guarded by `params.Article != nil && params.Locations != ""`
and the first GeoJSON dataset being named "locations". -/
def treeEntriesFromParams (fmtO : Formatter) (path : String) (params : Params) :
    Except String (List TreeEntry) :=
  let step1 : Except String (List TreeEntry) :=
    match params.article with
    | none => .ok []
    | some a =>
      match articleTreeEntry fmtO path a with
      | .error e => .error ("error creating article tree entry: " ++ e)
      | .ok entry => .ok [entry]
  match step1 with
  | .error e => .error e
  | .ok acc1 =>
    let step2 : Except String (List TreeEntry) :=
      if params.bodyHTML ≠ "" then
        match articleBodyHTML fmtO path params.bodyHTML with
        | .error e => .error ("error creating article body html tree entry: " ++ e)
        | .ok entry => .ok (acc1 ++ [entry])
      else .ok acc1
    match step2 with
    | .error e => .error e
    | .ok acc2 =>
      let step3 : Except String (List TreeEntry) :=
        if params.articleJS ≠ "" then
          match articleJS fmtO path params.articleJS with
          | .error e => .error ("error creating article js tree entry: " ++ e)
          | .ok entry => .ok (acc2 ++ [entry])
        else .ok acc2
      match step3 with
      | .error e => .error e
      | .ok acc3 =>
        let step4 : Except String (List TreeEntry) :=
          if params.teaserGeoJSON ≠ "" then
            match articleTeaserGeoJSON fmtO path params.teaserGeoJSON with
            | .error e => .error ("error creating article teaser geojson tree entry: " ++ e)
            | .ok entry => .ok (acc3 ++ [entry])
          else .ok acc3
        match step4 with
        | .error e => .error e
        | .ok acc4 =>
          let step5 : Except String (List TreeEntry) :=
            if params.teaserJS ≠ "" then
              match articleTeaserJS fmtO path params.teaserJS with
              | .error e => .error ("error creating article teaser js tree entry: " ++ e)
              | .ok entry => .ok (acc4 ++ [entry])
            else .ok acc4
          match step5 with
          | .error e => .error e
          | .ok acc5 =>
            match params.article with
            | none => .ok acc5
            | some a =>
              if params.locations ≠ "" ∧ a.geoJSONDatasets.head? = some "locations" then
                match articleGeoJSONDatasets fmtO path params.locations with
                | .error e =>
                  .error ("error creating article geojson datasets tree entries: " ++ e)
                | .ok entries => .ok (acc5 ++ entries)
              else .ok acc5

/-! ### FetchArticle (articles.go lines 24-95) -/

/-- The loop over `article.GeoJSONDatasets` at the end of `FetchArticle`
(articles.go lines 75-93): every dataset named "locations" is fetched and
parsed, the last one fetched winning.  `parseFC` is the external
`geojson.UnmarshalFeatureCollection`. -/
def fetchLocationsLoop (host : Host) (parseFC : String → Except String FeatureCollection)
    (slug : String) : List String → ArticleCheckout →
    Except String ArticleCheckout × List Call
  | [], res => (.ok res, [])
  | name :: rest, res =>
    if name = "locations" then
      let locPath := "articles/" ++ slug ++ "/locations.geojson"
      match host.getContents locPath with
      | .error e => (.error ("error getting file content: " ++ e), [.getContents locPath])
      | .ok content =>
        match parseFC content with
        | .error e => (.error ("error unmarshaling locations geojson: " ++ e), [.getContents locPath])
        | .ok fc =>
          let next := fetchLocationsLoop host parseFC slug rest
            { res with locationsGeoJSON := some fc }
          (next.1, .getContents locPath :: next.2)
    else fetchLocationsLoop host parseFC slug rest res

/-- Model of `FetchArticle` (articles.go lines 24-95): fetch main's head, then the three
article files by raw slug, applying `removeQuotes` only to the returned Slug
field.  `parseArticle` is the external `json.Unmarshal` into
`citygraph.Article`; fetching and decoding a file's content are collapsed into
the single `getContents` oracle. -/
def fetchArticle (host : Host) (parseArticle : String → Except String Article)
    (parseFC : String → Except String FeatureCollection) (slug : String) :
    Except String ArticleCheckout × List Call :=
  match host.getRef "refs/heads/main" with
  | .error e => (.error ("error getting reference: " ++ e), [.getRef "refs/heads/main"])
  | .ok _ =>
    let jsonPath := "articles/" ++ slug ++ "/article.json"
    let calls1 := [Call.getRef "refs/heads/main", Call.getContents jsonPath]
    match host.getContents jsonPath with
    | .error e => (.error ("error getting file content: " ++ e), calls1)
    | .ok content =>
      match parseArticle content with
      | .error e => (.error ("error unmarshaling article: " ++ e), calls1)
      | .ok article =>
        let htmlPath := "articles/" ++ slug ++ "/article.html"
        let calls2 := calls1 ++ [Call.getContents htmlPath]
        match host.getContents htmlPath with
        | .error e => (.error ("error getting file content: " ++ e), calls2)
        | .ok htmlContent =>
          let jsPath := "articles/" ++ slug ++ "/article.js"
          let calls3 := calls2 ++ [Call.getContents jsPath]
          match host.getContents jsPath with
          | .error e => (.error ("error getting file content: " ++ e), calls3)
          | .ok jsContent =>
            let res : ArticleCheckout :=
              { slug := removeQuotes slug, article := some article
                bodyHTML := htmlContent, javascriptFunction := jsContent
                locationsGeoJSON := none }
            let loop := fetchLocationsLoop host parseFC slug article.geoJSONDatasets res
            (loop.1, calls3 ++ loop.2)

/-! ### Concrete oracles used to instantiate the theorems -/

/-- An identity formatter: every content is already pretty. -/
def fmtId : Formatter := fun code _ => .ok code

/-- A host on which every call succeeds with simple canned data. -/
def okHost : Host :=
  { getRef := fun r => .ok ⟨r, "mainsha"⟩
    createRef := fun r s => .ok ⟨r, s⟩
    getPR := fun _ => .error "no pr"
    getContents := fun p => .ok ("content of " ++ p)
    createTree := fun _ _ => .ok ⟨"treesha"⟩
    getCommit := fun s => .ok ⟨s⟩
    createCommit := fun _ _ _ => .ok ⟨"newsha"⟩
    updateRef := fun r s => .ok ⟨r, s⟩
    createPR := fun _ npr => .ok ⟨42, "https://pr/42", "open", npr.head⟩
    requestReviewers := fun _ _ => .ok () }

/-- A create responder that always fails with the race signature for head
"refs/heads/b". -/
def raceCreate : Nat → Except CreateErr PullRequest :=
  fun _ => .error (.errorResponse [⟨"custom", "No commits between main and refs/heads/b"⟩])

/-- The PR eventually created in the non-race retry scenario. -/
def prSeven : PullRequest := ⟨7, "https://example.com/pr/7", "open", "b"⟩

/-- A create responder whose first attempt fails with a non-race
`ErrorResponse` and whose second attempt succeeds. -/
def nonRaceCreate : Nat → Except CreateErr PullRequest :=
  fun i =>
    if i = 0 then .error (.errorResponse [⟨"unprocessable", "Validation Failed"⟩])
    else .ok prSeven

/-- A create responder that always fails with a non-`ErrorResponse` error. -/
def otherErrCreate : Nat → Except CreateErr PullRequest :=
  fun _ => .error (.other "context canceled")

/-- Params (refactored variant) holding only a locations artifact. -/
def locOnlyParams : Params :=
  ⟨false, none, none, "", "", "geojsondata", "", "", "", 0, "", ""⟩

/-- An article whose first GeoJSON dataset is named "locations". -/
def locArticle : Article := ⟨"articlejson", ["locations"]⟩

/-- Params (refactored variant) holding the article and a locations artifact. -/
def locWithArticleParams : Params :=
  ⟨false, some locArticle, none, "", "", "geojsondata", "", "", "", 0, "", ""⟩

/-- PullRequestParams holding only a teaser-JS artifact with content MARKER. -/
def teaserOnlyParams : PullRequestParams :=
  ⟨none, none, "", "", "", "", "", 0, "", "MARKER"⟩

/-- A formatter that rejects exactly the teaser.js path of slug "s". -/
def teaserFailFmt : Formatter :=
  fun _ path => if path = "articles/s/teaser.js" then .error "boom" else .ok path

/-- PullRequestParams holding only a teaser-GeoJSON artifact. -/
def teaserGeoOnlyParams : PullRequestParams :=
  ⟨none, none, "", "", "", "", "", 0, "GMARK", ""⟩

/-- A formatter that rejects exactly the teaser.geojson path of slug "s". -/
def teaserGeoFailFmt : Formatter :=
  fun _ path => if path = "articles/s/teaser.geojson" then .error "gboom" else .ok path

/-- PullRequestParams holding the article plus a locations artifact. -/
def locFailParams : PullRequestParams :=
  ⟨some locArticle, none, "", "", "geojsondata", "", "", 0, "", ""⟩

/-- A formatter that rejects exactly the locations.geojson path of slug "s". -/
def locFailFmt : Formatter :=
  fun code path => if path = "articles/s/locations.geojson" then .error "lboom" else .ok code

/-- A host whose PR number 5 is open with head branch "feature-x". -/
def openPRHost : Host :=
  { okHost with getPR := fun _ => .ok ⟨11, "https://pr/11", "open", "feature-x"⟩ }

/-- A host whose PR number 5 is closed with head branch "old-branch". -/
def closedPRHost : Host :=
  { okHost with getPR := fun _ => .ok ⟨12, "https://pr/12", "closed", "old-branch"⟩ }

/-- A host on which reviewer assignment fails. -/
def revFailHost : Host :=
  { okHost with requestReviewers := fun _ _ => .error "rev boom" }

/-- A slug wrapped in double quotes, for exercising removeQuotes. -/
def quotedSlug : String := "\x22my-slug\x22"

/-- The canned article returned by the concrete parser below. -/
def cannedArticle : Article := ⟨"artjson", []⟩

/-- A concrete article parser. -/
def cannedParseArticle : String → Except String Article := fun _ => .ok cannedArticle

/-- A concrete feature-collection parser. -/
def cannedParseFC : String → Except String FeatureCollection := fun s => .ok ⟨s⟩

end Robots

/-! ## Theorems -/

namespace Robots

/-- Helper: when every attempt in a window fails with an `ErrorResponse`
containing the race signature, the retry loop runs the whole window, sleeping
the computed delay after each attempt, and exhausts. -/
theorem retryLoop_allRace (create : Nat → Except CreateErr PullRequest) (head : String)
    (M : Nat) :
    ∀ remaining i,
      (∀ j, i ≤ j → j < i + remaining →
        ∃ errs, create j = .error (.errorResponse errs) ∧
          errs.any (raceSignature head) = true) →
      retryLoop create head M i remaining =
        (.exhausted ("unable to create PR after " ++ toString M ++ " attempts"),
         (List.range remaining).map (fun k => retryDelay (i + k)), remaining) := by
  intro remaining
  induction remaining with
  | zero => intro i _; simp [retryLoop]
  | succ r ih =>
    intro i h
    obtain ⟨errs, hc, hany⟩ := h i le_rfl (by omega)
    have hrest := ih (i + 1) (fun j hj1 hj2 => h j (by omega) (by omega))
    rw [retryLoop, hc]
    simp only [hany, if_true, hrest, List.range_succ_eq_map, List.map_cons, List.map_map,
      Nat.add_zero, List.singleton_append, Prod.mk.injEq, List.cons.injEq]
    refine ⟨trivial, ⟨trivial, List.map_congr_left ?_⟩, trivial⟩
    intro k _
    simp only [Function.comp_apply, Nat.succ_eq_add_one]
    congr 1
    omega

/-- C1: when every creation attempt fails with the race signature and
maxRetries is 10, `createPRWithRetry` makes exactly 10 attempts, sleeps
2, 4, 8, 16, 30, 30, 30, 30, 30, 30 seconds after attempts 0..9, and returns
no pull request together with the attempts-exhausted error. -/
theorem createPRWithRetry_race_exhausted (create : Nat → Except CreateErr PullRequest)
    (head : String)
    (h : ∀ i, i < 10 →
      ∃ errs, create i = .error (.errorResponse errs) ∧
        errs.any (raceSignature head) = true) :
    createPRWithRetry create head 10 =
      (.exhausted "unable to create PR after 10 attempts",
       [2, 4, 8, 16, 30, 30, 30, 30, 30, 30], 10) := by
  have hr := retryLoop_allRace create head 10 10 0 (fun j _ hj2 => h j (by omega))
  rw [createPRWithRetry, hr]
  rfl

/-- Witness for C1 at a concrete always-racing create responder. -/
theorem createPRWithRetry_race_exhausted_witness :
    createPRWithRetry raceCreate "refs/heads/b" 10 =
      (.exhausted "unable to create PR after 10 attempts",
       [2, 4, 8, 16, 30, 30, 30, 30, 30, 30], 10) :=
  createPRWithRetry_race_exhausted raceCreate "refs/heads/b"
    (fun i _ =>
      ⟨[⟨"custom", "No commits between main and refs/heads/b"⟩], rfl, by decide⟩)

/-- C4 counterexample: an `ErrorResponse` that does not carry the race
signature is not returned immediately — the loop makes a second attempt (and,
it succeeding here, returns its pull request), with no delay slept. -/
theorem createPRWithRetry_nonRace_counterexample :
    raceSignature "b" ⟨"unprocessable", "Validation Failed"⟩ = false ∧
    createPRWithRetry nonRaceCreate "b" 10 = (.ok prSeven, [], 2) := by
  decide

/-- C4 amended: only an error that is not a `*gh.ErrorResponse` is returned
immediately, after a single attempt and with no delay slept; an
`ErrorResponse` lacking the race signature instead causes the loop to retry
at once, continuing with the next attempt and recording no delay. -/
theorem createPRWithRetry_fatal_spec (create : Nat → Except CreateErr PullRequest)
    (head : String) (m : String) (errs : List ErrorItem) :
    (create 0 = .error (.other m) →
      createPRWithRetry create head 10 = (.fatal (.other m), [], 1)) ∧
    (create 0 = .error (.errorResponse errs) → errs.any (raceSignature head) = false →
      createPRWithRetry create head 10 =
        ((retryLoop create head 10 1 9).1, (retryLoop create head 10 1 9).2.1,
         (retryLoop create head 10 1 9).2.2 + 1)) := by
  constructor
  · intro h
    simp [createPRWithRetry, retryLoop, h]
  · intro h hany
    simp [createPRWithRetry, retryLoop, h, hany]

/-- Witness for the amended C4: a non-`ErrorResponse` error returns at once
after one attempt; a non-race `ErrorResponse` leads to a second attempt. -/
theorem createPRWithRetry_fatal_spec_witness :
    createPRWithRetry otherErrCreate "b" 10 = (.fatal (.other "context canceled"), [], 1) ∧
    createPRWithRetry nonRaceCreate "b" 10 = (.ok prSeven, [], 2) := by
  constructor
  · exact (createPRWithRetry_fatal_spec otherErrCreate "b" "context canceled" []).1 rfl
  · exact (createPRWithRetry_fatal_spec nonRaceCreate "b" ""
      [⟨"unprocessable", "Validation Failed"⟩]).2 rfl (by decide)

/-- C9: removeQuotes strips exactly the boundary pair when a string of length
at least 2 starts and ends with the same quote character (double or single),
returns every other string unchanged, and `FetchArticle` applies it only to
the Slug field of its result while the fetched file paths use the raw slug. -/
theorem removeQuotes_spec :
    (∀ s : String,
      (2 ≤ s.length →
        ((s.data.head? = some '\x22' ∧ s.data.getLast? = some '\x22') ∨
         (s.data.head? = some '\x27' ∧ s.data.getLast? = some '\x27')) →
        removeQuotes s = String.mk (s.data.tail.dropLast)) ∧
      ((s.length < 2 ∨
        (¬(s.data.head? = some '\x22' ∧ s.data.getLast? = some '\x22') ∧
         ¬(s.data.head? = some '\x27' ∧ s.data.getLast? = some '\x27'))) →
        removeQuotes s = s)) ∧
    (∀ (host : Host) (pA : String → Except String Article)
       (pFC : String → Except String FeatureCollection) (slug : String)
       (ref : Reference) (cj ch cjs : String) (art : Article),
      host.getRef "refs/heads/main" = .ok ref →
      host.getContents ("articles/" ++ slug ++ "/article.json") = .ok cj →
      pA cj = .ok art →
      host.getContents ("articles/" ++ slug ++ "/article.html") = .ok ch →
      host.getContents ("articles/" ++ slug ++ "/article.js") = .ok cjs →
      art.geoJSONDatasets = [] →
      fetchArticle host pA pFC slug =
        (.ok { slug := removeQuotes slug, article := some art, bodyHTML := ch,
               javascriptFunction := cjs, locationsGeoJSON := none },
         [.getRef "refs/heads/main",
          .getContents ("articles/" ++ slug ++ "/article.json"),
          .getContents ("articles/" ++ slug ++ "/article.html"),
          .getContents ("articles/" ++ slug ++ "/article.js")])) := by
  constructor
  · intro s
    cases s with
    | mk d =>
      match d with
      | [] => exact ⟨fun h => by simp [String.length] at h, fun _ => rfl⟩
      | [c] =>
        refine ⟨fun h => by simp [String.length] at h, fun _ => ?_⟩
        simp [removeQuotes, removeQuotesList]
      | c1 :: c2 :: t =>
        have hne : c2 :: t ≠ [] := by simp
        have hlast : (c1 :: c2 :: t).getLast? =
            some ((c1 :: c2 :: t).getLast (by simp)) :=
          List.getLast?_eq_getLast_of_ne_nil (by simp)
        constructor
        · intro _ hq
          have hcond : (c1 = '\x22' ∧ (c1 :: c2 :: t).getLast (by simp) = '\x22') ∨
              (c1 = '\x27' ∧ (c1 :: c2 :: t).getLast (by simp) = '\x27') := by
            rcases hq with ⟨h1, h2⟩ | ⟨h1, h2⟩
            · left
              refine ⟨by simpa using h1, ?_⟩
              rw [hlast] at h2
              simpa using h2
            · right
              refine ⟨by simpa using h1, ?_⟩
              rw [hlast] at h2
              simpa using h2
          simp only [removeQuotes, removeQuotesList, hcond, if_true, List.tail_cons]
        · intro hq
          rcases hq with hlen | ⟨h1, h2⟩
          · simp [String.length] at hlen
            omega
          · have hcond : ¬((c1 = '\x22' ∧ (c1 :: c2 :: t).getLast (by simp) = '\x22') ∨
                (c1 = '\x27' ∧ (c1 :: c2 :: t).getLast (by simp) = '\x27')) := by
              rintro (⟨g1, g2⟩ | ⟨g1, g2⟩)
              · exact h1 ⟨by simpa using g1, by rw [hlast]; simpa using g2⟩
              · exact h2 ⟨by simpa using g1, by rw [hlast]; simpa using g2⟩
            simp only [removeQuotes, removeQuotesList, hcond, if_false]
  · intro host pA pFC slug ref cj ch cjs art h1 h2 h3 h4 h5 h6
    rw [fetchArticle, h1]
    simp only [h2, h3, h4, h5, h6, fetchLocationsLoop]
    rfl

/-- Witness for C9: a double-quoted slug is stripped, a bare slug and a
mismatched one are unchanged, and on a concrete host `FetchArticle` puts the
stripped slug in the Slug field while fetching paths built from the raw
quoted slug. -/
theorem removeQuotes_spec_witness :
    removeQuotes quotedSlug = "my-slug" ∧
    removeQuotes "my-slug" = "my-slug" ∧
    fetchArticle okHost cannedParseArticle cannedParseFC quotedSlug =
      (.ok { slug := "my-slug", article := some cannedArticle,
             bodyHTML := "content of articles/\x22my-slug\x22/article.html",
             javascriptFunction := "content of articles/\x22my-slug\x22/article.js",
             locationsGeoJSON := none },
       [.getRef "refs/heads/main",
        .getContents "articles/\x22my-slug\x22/article.json",
        .getContents "articles/\x22my-slug\x22/article.html",
        .getContents "articles/\x22my-slug\x22/article.js"]) := by
  refine ⟨?_, ?_, ?_⟩
  · have := (removeQuotes_spec.1 quotedSlug).1 (by decide) (by decide)
    simpa using this
  · exact (removeQuotes_spec.1 "my-slug").2 (by right; decide)
  · have := removeQuotes_spec.2 okHost cannedParseArticle cannedParseFC quotedSlug
      ⟨"refs/heads/main", "mainsha"⟩
      ("content of articles/\x22my-slug\x22/article.json")
      ("content of articles/\x22my-slug\x22/article.html")
      ("content of articles/\x22my-slug\x22/article.js")
      cannedArticle rfl rfl rfl rfl rfl rfl
    simpa using this

/-- Helper: folding option functions none of which is `WithPRBody` leaves the
PRBody field untouched. -/
theorem foldl_applyOption_prBody (opts : List PullRequestOption) :
    ∀ p : PullRequestParams, (∀ b, PullRequestOption.withPRBody b ∉ opts) →
      (opts.foldl applyOption p).prBody = p.prBody := by
  induction opts with
  | nil => intro p _; rfl
  | cons o rest ih =>
    intro p h
    rw [List.foldl_cons]
    rw [ih (applyOption p o) (fun b hb => h b (List.mem_cons_of_mem o hb))]
    cases o with
    | withPRBody b => exact absurd (List.mem_cons_self _ _) (fun hc => h b hc)
    | withArticle a => rfl
    | withPlace pl => rfl
    | withBodyHTML s => rfl
    | withArticleJS s => rfl
    | withLocations s => rfl
    | withPRNum n => rfl
    | withPRTitle s => rfl
    | withTeaserGeoJSON s => rfl
    | withTeaserJS s => rfl

/-- C10: when no `WithPRBody` option is supplied, the new pull request is
created with body exactly "This PR was created dynamically."; supplying
`WithPRBody` replaces that default with the given string. -/
theorem prBody_default_spec (opts : List PullRequestOption) (headRef : String) :
    ((∀ b, PullRequestOption.withPRBody b ∉ opts) →
      (newPRFor (buildParams opts) headRef).body = "This PR was created dynamically.") ∧
    (∀ b, (newPRFor (buildParams (opts ++ [PullRequestOption.withPRBody b])) headRef).body
        = b) := by
  constructor
  · intro h
    show (buildParams opts).prBody = _
    rw [buildParams, foldl_applyOption_prBody opts initParams h]
    rfl
  · intro b
    show (buildParams (opts ++ [PullRequestOption.withPRBody b])).prBody = b
    rw [buildParams, List.foldl_append]
    rfl

/-- Witness for C10 at a concrete option list. -/
theorem prBody_default_spec_witness :
    (newPRFor (buildParams [PullRequestOption.withPRTitle "t"]) "refs/heads/x").body =
      "This PR was created dynamically." ∧
    (newPRFor (buildParams
        ([PullRequestOption.withPRTitle "t"] ++ [PullRequestOption.withPRBody "my body"]))
      "refs/heads/x").body = "my body" := by
  constructor
  · exact (prBody_default_spec [PullRequestOption.withPRTitle "t"] "refs/heads/x").1
      (fun b hb => by simp at hb)
  · exact (prBody_default_spec [PullRequestOption.withPRTitle "t"] "refs/heads/x").2 "my body"

/-- C3 counterexample: with only the locations artifact present (Article nil,
everything else empty) the build emits no entries at all — not the claimed
two-entry pair — because the locations step is guarded by
`params.Article != nil`. -/
theorem locationsOnly_counterexample :
    treeEntriesFromParams fmtId "articles/s" locOnlyParams = .ok [] ∧
    ¬ ∃ a b : TreeEntry,
      treeEntriesFromParams fmtId "articles/s" locOnlyParams = .ok [a, b] := by
  refine ⟨rfl, ?_⟩
  rintro ⟨a, b, h⟩
  rw [show treeEntriesFromParams fmtId "articles/s" locOnlyParams =
    .ok ([] : List TreeEntry) from rfl] at h
  simp at h

/-- C3 amended: with only the locations artifact non-empty and no article, the
build output is empty; the two-entry derived pair (locations file plus fixed
placeholder sibling) is emitted only when the article artifact is also
present with its first GeoJSON dataset named "locations", in which case the
output is the article entry followed by exactly that pair. -/
theorem treeEntriesFromParams_locations_rule :
    (∀ (fmtO : Formatter) (path : String) (p : Params),
      p.article = none → p.bodyHTML = "" → p.articleJS = "" → p.teaserGeoJSON = "" →
      p.teaserJS = "" → treeEntriesFromParams fmtO path p = .ok []) ∧
    (∀ (fmtO : Formatter) (path : String) (p : Params) (a : Article) (cj cl cp : String),
      p.article = some a → p.bodyHTML = "" → p.articleJS = "" → p.teaserGeoJSON = "" →
      p.teaserJS = "" → p.locations ≠ "" → a.geoJSONDatasets.head? = some "locations" →
      fmtO a.json (path ++ "/article.json") = .ok cj →
      fmtO p.locations (path ++ "/locations.geojson") = .ok cl →
      fmtO locationsPlaceholder (path ++ "/locations.js") = .ok cp →
      treeEntriesFromParams fmtO path p =
        .ok [⟨path ++ "/article.json", "100644", "blob", cj⟩,
             ⟨path ++ "/locations.geojson", "100644", "blob", cl⟩,
             ⟨path ++ "/locations.js", "100644", "blob", cp⟩]) := by
  constructor
  · intro fmtO path p ha hh hj hg ht
    simp [treeEntriesFromParams, ha, hh, hj, hg, ht]
  · intro fmtO path p a cj cl cp ha hh hj hg ht hloc hds hfj hfl hfp
    simp [treeEntriesFromParams, articleTreeEntry, articleGeoJSONDatasets,
      ha, hh, hj, hg, ht, hloc, hds, hfj, hfl, hfp]

/-- Witness for the amended C3 at concrete params. -/
theorem treeEntriesFromParams_locations_rule_witness :
    treeEntriesFromParams fmtId "articles/s" locOnlyParams = .ok [] ∧
    treeEntriesFromParams fmtId "articles/s" locWithArticleParams =
      .ok [⟨"articles/s/article.json", "100644", "blob", "articlejson"⟩,
           ⟨"articles/s/locations.geojson", "100644", "blob", "geojsondata"⟩,
           ⟨"articles/s/locations.js", "100644", "blob", locationsPlaceholder⟩] := by
  constructor
  · exact treeEntriesFromParams_locations_rule.1 fmtId "articles/s" locOnlyParams
      rfl rfl rfl rfl rfl
  · exact treeEntriesFromParams_locations_rule.2 fmtId "articles/s" locWithArticleParams
      locArticle "articlejson" "geojsondata" locationsPlaceholder
      rfl rfl rfl rfl rfl (by decide) rfl rfl rfl rfl

/-- C5: with a nonzero PR number whose pull request the host reports open, the
whole run issues no create-pull-request and no reviewer-assignment call, the
commit lands on the fetched PR's existing head ref, and the returned number
and URL are exactly those of the fetched PR. -/
theorem openPR_reuse (host : Host) (fmtO : Formatter) (now slug : String)
    (opts : List PullRequestOption) (pr : PullRequest) (ref r2 : Reference)
    (entries : List TreeEntry) (tree : Tree) (parent commit : GitCommit)
    (hn0 : (buildParams opts).prNum ≠ 0)
    (hget : host.getPR (buildParams opts).prNum = .ok pr)
    (hopen : pr.state = "open")
    (href : host.getRef ("refs/heads/" ++ pr.headRef) = .ok ref)
    (hrefname : ref.ref = "refs/heads/" ++ pr.headRef)
    (hbuild : buildTreeEntries fmtO slug (buildParams opts) = .ok entries)
    (htree : host.createTree ref.sha entries = .ok tree)
    (hparent : host.getCommit ref.sha = .ok parent)
    (hcommit : host.createCommit (buildParams opts).prTitle tree [parent] = .ok commit)
    (hupdate : host.updateRef ("refs/heads/" ++ pr.headRef) commit.sha = .ok r2) :
    createOrUpdateArticlePullRequest host fmtO now slug opts =
      ((pr.number, pr.htmlURL, none),
       [.getPR (buildParams opts).prNum, .getRef ("refs/heads/" ++ pr.headRef),
        .createTree ref.sha entries, .getCommit ref.sha,
        .createCommit (buildParams opts).prTitle tree [parent],
        .updateRef ("refs/heads/" ++ pr.headRef) commit.sha]) := by
  have hne : pr.state ≠ "closed" := by rw [hopen]; decide
  have hres : resolveBranch host now (buildParams opts).prNum =
      (.ok (ref, some pr),
       [.getPR (buildParams opts).prNum, .getRef ("refs/heads/" ++ pr.headRef)]) := by
    rw [resolveBranch, if_neg hn0, hget]
    simp [hne, href]
  have hcap : commitAndPR host fmtO slug (buildParams opts) ref (some pr) =
      ((pr.number, pr.htmlURL, none),
       [.createTree ref.sha entries, .getCommit ref.sha,
        .createCommit (buildParams opts).prTitle tree [parent],
        .updateRef ("refs/heads/" ++ pr.headRef) commit.sha]) := by
    rw [commitAndPR, hbuild]
    simp [htree, hparent, hcommit, hrefname, hupdate, finishPR]
  rw [createOrUpdateArticlePullRequest, hres]
  simp [hcap]

/-- Witness for C5 on a concrete host whose PR 5 is open. -/
theorem openPR_reuse_witness :
    createOrUpdateArticlePullRequest openPRHost fmtId "20240101-000000" "slug"
        [PullRequestOption.withPRNum 5] =
      ((11, "https://pr/11", none),
       [.getPR 5, .getRef "refs/heads/feature-x",
        .createTree "mainsha" [], .getCommit "mainsha",
        .createCommit "" ⟨"treesha"⟩ [⟨"mainsha"⟩],
        .updateRef "refs/heads/feature-x" "newsha"]) := by
  have := openPR_reuse openPRHost fmtId "20240101-000000" "slug"
    [PullRequestOption.withPRNum 5] ⟨11, "https://pr/11", "open", "feature-x"⟩
    ⟨"refs/heads/feature-x", "mainsha"⟩ ⟨"refs/heads/feature-x", "newsha"⟩
    [] ⟨"treesha"⟩ ⟨"mainsha"⟩ ⟨"newsha"⟩
    (by decide) rfl rfl rfl rfl rfl rfl rfl rfl rfl
  simpa using this

/-- C6: with a nonzero PR number whose pull request the host reports closed,
the run creates a fresh timestamp-named branch at main's current head commit
and a new pull request from it; the closed PR's head ref is never fetched or
updated, and the returned number and URL are the newly created PR's. -/
theorem closedPR_freshBranch (host : Host) (fmtO : Formatter) (now slug : String)
    (opts : List PullRequestOption) (pr created : PullRequest) (mainRef newRef r2 : Reference)
    (entries : List TreeEntry) (tree : Tree) (parent commit : GitCommit)
    (hn0 : (buildParams opts).prNum ≠ 0)
    (hget : host.getPR (buildParams opts).prNum = .ok pr)
    (hclosed : pr.state = "closed")
    (hmain : host.getRef "refs/heads/main" = .ok mainRef)
    (hcreateRef : host.createRef ("refs/heads/" ++ ("scottie-" ++ now)) mainRef.sha = .ok newRef)
    (hnewname : newRef.ref = "refs/heads/" ++ ("scottie-" ++ now))
    (hbuild : buildTreeEntries fmtO slug (buildParams opts) = .ok entries)
    (htree : host.createTree newRef.sha entries = .ok tree)
    (hparent : host.getCommit newRef.sha = .ok parent)
    (hcommit : host.createCommit (buildParams opts).prTitle tree [parent] = .ok commit)
    (hupdate : host.updateRef ("refs/heads/" ++ ("scottie-" ++ now)) commit.sha = .ok r2)
    (hcreatePR : host.createPR 0
      (newPRFor (buildParams opts) ("refs/heads/" ++ ("scottie-" ++ now))) = .ok created)
    (hrev : host.requestReviewers created.number ["chrisdinn"] = .ok ())
    (hhead1 : "refs/heads/" ++ pr.headRef ≠ "refs/heads/main")
    (hhead2 : "refs/heads/" ++ pr.headRef ≠ "refs/heads/" ++ ("scottie-" ++ now)) :
    createOrUpdateArticlePullRequest host fmtO now slug opts =
      ((created.number, created.htmlURL, none),
       [.getPR (buildParams opts).prNum, .getRef "refs/heads/main",
        .createRef ("refs/heads/" ++ ("scottie-" ++ now)) mainRef.sha,
        .createTree newRef.sha entries, .getCommit newRef.sha,
        .createCommit (buildParams opts).prTitle tree [parent],
        .updateRef ("refs/heads/" ++ ("scottie-" ++ now)) commit.sha,
        .createPR (newPRFor (buildParams opts) ("refs/heads/" ++ ("scottie-" ++ now))),
        .requestReviewers created.number ["chrisdinn"]]) ∧
    (∀ c ∈ (createOrUpdateArticlePullRequest host fmtO now slug opts).2,
      c ≠ .getRef ("refs/heads/" ++ pr.headRef) ∧
      ∀ sha, c ≠ .updateRef ("refs/heads/" ++ pr.headRef) sha) := by
  have hres : resolveBranch host now (buildParams opts).prNum =
      (.ok (newRef, none),
       [.getPR (buildParams opts).prNum, .getRef "refs/heads/main",
        .createRef ("refs/heads/" ++ ("scottie-" ++ now)) mainRef.sha]) := by
    rw [resolveBranch, if_neg hn0, hget]
    simp [hclosed, newBranchRef, hmain, hcreateRef]
  have hfin : finishPR host (buildParams opts) newRef none =
      ((created.number, created.htmlURL, none),
       [.createPR (newPRFor (buildParams opts) ("refs/heads/" ++ ("scottie-" ++ now))),
        .requestReviewers created.number ["chrisdinn"]]) := by
    rw [finishPR]
    simp only [hnewname]
    simp [createPRWithRetry, retryLoop, hcreatePR, hrev, List.replicate]
  have hcap : commitAndPR host fmtO slug (buildParams opts) newRef none =
      ((created.number, created.htmlURL, none),
       [.createTree newRef.sha entries, .getCommit newRef.sha,
        .createCommit (buildParams opts).prTitle tree [parent],
        .updateRef ("refs/heads/" ++ ("scottie-" ++ now)) commit.sha,
        .createPR (newPRFor (buildParams opts) ("refs/heads/" ++ ("scottie-" ++ now))),
        .requestReviewers created.number ["chrisdinn"]]) := by
    rw [commitAndPR, hbuild]
    simp [htree, hparent, hcommit, hnewname, hupdate, hfin]
  have heq : createOrUpdateArticlePullRequest host fmtO now slug opts =
      ((created.number, created.htmlURL, none),
       [.getPR (buildParams opts).prNum, .getRef "refs/heads/main",
        .createRef ("refs/heads/" ++ ("scottie-" ++ now)) mainRef.sha,
        .createTree newRef.sha entries, .getCommit newRef.sha,
        .createCommit (buildParams opts).prTitle tree [parent],
        .updateRef ("refs/heads/" ++ ("scottie-" ++ now)) commit.sha,
        .createPR (newPRFor (buildParams opts) ("refs/heads/" ++ ("scottie-" ++ now))),
        .requestReviewers created.number ["chrisdinn"]]) := by
    rw [createOrUpdateArticlePullRequest, hres]
    simp [hcap]
  refine ⟨heq, ?_⟩
  rw [heq]
  intro c hc
  simp only [List.mem_cons, List.not_mem_nil, or_false] at hc
  rcases hc with rfl | rfl | rfl | rfl | rfl | rfl | rfl | rfl | rfl
  · exact ⟨by simp, fun sha => by simp⟩
  · exact ⟨by simp [Ne.symm hhead1], fun sha => by simp⟩
  · exact ⟨by simp, fun sha => by simp⟩
  · exact ⟨by simp, fun sha => by simp⟩
  · exact ⟨by simp, fun sha => by simp⟩
  · exact ⟨by simp, fun sha => by simp⟩
  · exact ⟨by simp, fun sha => by simp [Ne.symm hhead2]⟩
  · exact ⟨by simp, fun sha => by simp⟩
  · exact ⟨by simp, fun sha => by simp⟩

/-- Witness for C6 on a concrete host whose PR 5 is closed. -/
theorem closedPR_freshBranch_witness :
    createOrUpdateArticlePullRequest closedPRHost fmtId "20240101-000000" "slug"
        [PullRequestOption.withPRNum 5] =
      ((42, "https://pr/42", none),
       [.getPR 5, .getRef "refs/heads/main",
        .createRef "refs/heads/scottie-20240101-000000" "mainsha",
        .createTree "mainsha" [], .getCommit "mainsha",
        .createCommit "" ⟨"treesha"⟩ [⟨"mainsha"⟩],
        .updateRef "refs/heads/scottie-20240101-000000" "newsha",
        .createPR ⟨"", "refs/heads/scottie-20240101-000000", "main",
          "This PR was created dynamically.", true⟩,
        .requestReviewers 42 ["chrisdinn"]]) := by
  have := (closedPR_freshBranch closedPRHost fmtId "20240101-000000" "slug"
    [PullRequestOption.withPRNum 5] ⟨12, "https://pr/12", "closed", "old-branch"⟩
    ⟨42, "https://pr/42", "open", "refs/heads/scottie-20240101-000000"⟩
    ⟨"refs/heads/main", "mainsha"⟩
    ⟨"refs/heads/scottie-20240101-000000", "mainsha"⟩
    ⟨"refs/heads/scottie-20240101-000000", "newsha"⟩
    [] ⟨"treesha"⟩ ⟨"mainsha"⟩ ⟨"newsha"⟩
    (by decide) rfl rfl rfl rfl rfl rfl rfl rfl rfl rfl rfl rfl
    (by decide) (by decide)).1
  simpa using this

/-- C7: when the pull request is created successfully (visible in the trace)
but the reviewer-assignment call then fails, the orchestration returns number
0, an empty URL and the reviewer-assignment error, discarding the created
PR's number and URL. -/
theorem reviewerFailure_discards (host : Host) (fmtO : Formatter) (now slug : String)
    (opts : List PullRequestOption) (created : PullRequest) (mainRef newRef r2 : Reference)
    (entries : List TreeEntry) (tree : Tree) (parent commit : GitCommit) (e : String)
    (hn0 : (buildParams opts).prNum = 0)
    (hmain : host.getRef "refs/heads/main" = .ok mainRef)
    (hcreateRef : host.createRef ("refs/heads/" ++ ("scottie-" ++ now)) mainRef.sha = .ok newRef)
    (hnewname : newRef.ref = "refs/heads/" ++ ("scottie-" ++ now))
    (hbuild : buildTreeEntries fmtO slug (buildParams opts) = .ok entries)
    (htree : host.createTree newRef.sha entries = .ok tree)
    (hparent : host.getCommit newRef.sha = .ok parent)
    (hcommit : host.createCommit (buildParams opts).prTitle tree [parent] = .ok commit)
    (hupdate : host.updateRef ("refs/heads/" ++ ("scottie-" ++ now)) commit.sha = .ok r2)
    (hcreatePR : host.createPR 0
      (newPRFor (buildParams opts) ("refs/heads/" ++ ("scottie-" ++ now))) = .ok created)
    (hrev : host.requestReviewers created.number ["chrisdinn"] = .error e) :
    createOrUpdateArticlePullRequest host fmtO now slug opts =
      ((0, "", some ("error requesting reviewers: " ++ e)),
       [.getRef "refs/heads/main",
        .createRef ("refs/heads/" ++ ("scottie-" ++ now)) mainRef.sha,
        .createTree newRef.sha entries, .getCommit newRef.sha,
        .createCommit (buildParams opts).prTitle tree [parent],
        .updateRef ("refs/heads/" ++ ("scottie-" ++ now)) commit.sha,
        .createPR (newPRFor (buildParams opts) ("refs/heads/" ++ ("scottie-" ++ now))),
        .requestReviewers created.number ["chrisdinn"]]) := by
  have hres : resolveBranch host now (buildParams opts).prNum =
      (.ok (newRef, none),
       [.getRef "refs/heads/main",
        .createRef ("refs/heads/" ++ ("scottie-" ++ now)) mainRef.sha]) := by
    rw [resolveBranch, if_pos hn0]
    simp [newBranchRef, hmain, hcreateRef]
  have hfin : finishPR host (buildParams opts) newRef none =
      ((0, "", some ("error requesting reviewers: " ++ e)),
       [.createPR (newPRFor (buildParams opts) ("refs/heads/" ++ ("scottie-" ++ now))),
        .requestReviewers created.number ["chrisdinn"]]) := by
    rw [finishPR]
    simp only [hnewname]
    simp [createPRWithRetry, retryLoop, hcreatePR, hrev, List.replicate]
  have hcap : commitAndPR host fmtO slug (buildParams opts) newRef none =
      ((0, "", some ("error requesting reviewers: " ++ e)),
       [.createTree newRef.sha entries, .getCommit newRef.sha,
        .createCommit (buildParams opts).prTitle tree [parent],
        .updateRef ("refs/heads/" ++ ("scottie-" ++ now)) commit.sha,
        .createPR (newPRFor (buildParams opts) ("refs/heads/" ++ ("scottie-" ++ now))),
        .requestReviewers created.number ["chrisdinn"]]) := by
    rw [commitAndPR, hbuild]
    simp [htree, hparent, hcommit, hnewname, hupdate, hfin]
  rw [createOrUpdateArticlePullRequest, hres]
  simp [hcap]

/-- Witness for C7 on a concrete host whose reviewer assignment fails. -/
theorem reviewerFailure_discards_witness :
    createOrUpdateArticlePullRequest revFailHost fmtId "20240101-000000" "slug" [] =
      ((0, "", some "error requesting reviewers: rev boom"),
       [.getRef "refs/heads/main",
        .createRef "refs/heads/scottie-20240101-000000" "mainsha",
        .createTree "mainsha" [], .getCommit "mainsha",
        .createCommit "" ⟨"treesha"⟩ [⟨"mainsha"⟩],
        .updateRef "refs/heads/scottie-20240101-000000" "newsha",
        .createPR ⟨"", "refs/heads/scottie-20240101-000000", "main",
          "This PR was created dynamically.", true⟩,
        .requestReviewers 42 ["chrisdinn"]]) := by
  have := reviewerFailure_discards revFailHost fmtId "20240101-000000" "slug" []
    ⟨42, "https://pr/42", "open", "refs/heads/scottie-20240101-000000"⟩
    ⟨"refs/heads/main", "mainsha"⟩
    ⟨"refs/heads/scottie-20240101-000000", "mainsha"⟩
    ⟨"refs/heads/scottie-20240101-000000", "newsha"⟩
    [] ⟨"treesha"⟩ ⟨"mainsha"⟩ ⟨"newsha"⟩ "rev boom"
    rfl rfl rfl rfl rfl rfl rfl rfl rfl rfl rfl
  simpa using this

/-- Helper: when the build succeeds, the commit phase always starts by issuing
the create-tree call for the built entries, whatever the host answers. -/
theorem commitAndPR_trace_head (host : Host) (fmtO : Formatter) (slug : String)
    (p : PullRequestParams) (ref : Reference) (a : Option PullRequest)
    (entries : List TreeEntry)
    (hbuild : buildTreeEntries fmtO slug p = .ok entries) :
    ∃ rest, (commitAndPR host fmtO slug p ref a).2 =
      Call.createTree ref.sha entries :: rest := by
  rw [commitAndPR, hbuild]
  rcases h1 : host.createTree ref.sha entries with e1 | tree
  · exact ⟨_, by simp only [h1]; rfl⟩
  · rcases h2 : host.getCommit ref.sha with e2 | parent
    · exact ⟨_, by simp only [h1, h2]; rfl⟩
    · rcases h3 : host.createCommit p.prTitle tree [parent] with e3 | commit
      · exact ⟨_, by simp only [h1, h2, h3]; rfl⟩
      · rcases h4 : host.updateRef ref.ref commit.sha with e4 | r2
        · exact ⟨_, by simp only [h1, h2, h3, h4]; rfl⟩
        · exact ⟨_, by simp only [h1, h2, h3, h4]; rfl⟩

/-- C2 counterexample: a publish call with no artifacts at all is not
rejected — on a concrete all-succeeding host it resolves main, creates a
branch, creates a tree from the empty entry list, commits, and opens a pull
request, returning success. -/
theorem emptyArtifacts_counterexample :
    createOrUpdateArticlePullRequest okHost fmtId "20240101-000000" "slug" [] =
      ((42, "https://pr/42", none),
       [.getRef "refs/heads/main",
        .createRef "refs/heads/scottie-20240101-000000" "mainsha",
        .createTree "mainsha" [],
        .getCommit "mainsha",
        .createCommit "" ⟨"treesha"⟩ [⟨"mainsha"⟩],
        .updateRef "refs/heads/scottie-20240101-000000" "newsha",
        .createPR ⟨"", "refs/heads/scottie-20240101-000000", "main",
          "This PR was created dynamically.", true⟩,
        .requestReviewers 42 ["chrisdinn"]]) := rfl

/-- C2 amended: an empty change set is not rejected.  The build step yields an
empty entry list without consulting the formatter (the run is independent of
the formatter), and the call still resolves a branch and issues the
create-tree call for the empty change set. -/
theorem emptyArtifacts_notRejected (host : Host) (fmtA fmtB : Formatter)
    (now slug : String) (ref : Reference) (rcalls : List Call)
    (hres : resolveBranch host now (buildParams []).prNum = (.ok (ref, none), rcalls)) :
    buildTreeEntries fmtA slug (buildParams []) = .ok [] ∧
    createOrUpdateArticlePullRequest host fmtA now slug [] =
      createOrUpdateArticlePullRequest host fmtB now slug [] ∧
    ∃ rest, (createOrUpdateArticlePullRequest host fmtA now slug []).2 =
      rcalls ++ Call.createTree ref.sha [] :: rest := by
  have hbuildA : buildTreeEntries fmtA slug (buildParams []) = .ok [] := rfl
  have hbuildB : buildTreeEntries fmtB slug (buildParams []) = .ok [] := rfl
  refine ⟨hbuildA, ?_, ?_⟩
  · rw [createOrUpdateArticlePullRequest, createOrUpdateArticlePullRequest, hres]
    simp only [commitAndPR, hbuildA, hbuildB]
  · rw [createOrUpdateArticlePullRequest, hres]
    obtain ⟨rest, hr⟩ := commitAndPR_trace_head host fmtA slug (buildParams []) ref none
      [] hbuildA
    exact ⟨rest, by simp only [hr]⟩

/-- Witness for the amended C2 on the concrete all-succeeding host. -/
theorem emptyArtifacts_notRejected_witness :
    buildTreeEntries fmtId "slug" (buildParams []) = .ok [] ∧
    createOrUpdateArticlePullRequest okHost fmtId "20240101-000000" "slug" [] =
      createOrUpdateArticlePullRequest okHost teaserFailFmt "20240101-000000" "slug" [] ∧
    ∃ rest, (createOrUpdateArticlePullRequest okHost fmtId "20240101-000000" "slug" []).2 =
      [Call.getRef "refs/heads/main",
       Call.createRef "refs/heads/scottie-20240101-000000" "mainsha"] ++
        Call.createTree "mainsha" [] :: rest :=
  emptyArtifacts_notRejected okHost fmtId teaserFailFmt "20240101-000000" "slug"
    ⟨"refs/heads/scottie-20240101-000000", "mainsha"⟩
    [Call.getRef "refs/heads/main",
     Call.createRef "refs/heads/scottie-20240101-000000" "mainsha"] rfl

/-- Helper: branch creation issues no create-tree call. -/
theorem newBranchRef_no_createTree (host : Host) (now : String) :
    ∀ c ∈ (newBranchRef host now).2, ∀ b ents, c ≠ Call.createTree b ents := by
  intro c hc b ents
  rw [newBranchRef] at hc
  split at hc
  · simp only [List.mem_singleton] at hc
    subst hc
    simp
  · split at hc <;>
      simp only [List.mem_cons, List.not_mem_nil, or_false] at hc <;>
      rcases hc with rfl | rfl <;> simp

/-- Helper: branch resolution issues no create-tree call. -/
theorem resolveBranch_no_createTree (host : Host) (now : String) (prNum : Int) :
    ∀ c ∈ (resolveBranch host now prNum).2, ∀ b ents, c ≠ Call.createTree b ents := by
  intro c hc b ents
  rw [resolveBranch] at hc
  split at hc
  · rename_i h0
    split at hc <;> rename_i hnb <;>
    · refine newBranchRef_no_createTree host now c ?_ b ents
      rw [hnb]
      exact hc
  · rename_i h0
    split at hc
    · simp only [List.mem_singleton] at hc
      subst hc
      simp
    · split at hc
      · split at hc <;> rename_i hnb <;>
        · rcases List.mem_cons.mp hc with rfl | hmem
          · simp
          · refine newBranchRef_no_createTree host now c ?_ b ents
            rw [hnb]
            exact hmem
      · split at hc <;>
          simp only [List.mem_cons, List.not_mem_nil, or_false] at hc <;>
          rcases hc with rfl | rfl <;> simp

/-- C8 counterexample: a formatter failure on the teaser-JS artifact is
surfaced as "error formatting javascript: <err>" which does not carry the
offending content (here MARKER). -/
theorem teaserFormatError_counterexample :
    buildTreeEntries teaserFailFmt "s" teaserOnlyParams =
      .error "error formatting javascript: boom" ∧
    ¬ ("MARKER".data <:+: "error formatting javascript: boom".data) := by
  exact ⟨rfl, by decide⟩

/-- C8 amended: a formatter failure on any artifact kind aborts the build (and
hence the run issues no create-tree call), but the offending content is
attached only to the body-HTML and article-JS error messages; the JSON,
teaser and locations error messages carry only the formatter error. -/
theorem formatError_spec :
    (∀ (fmtO : Formatter) (slug : String) (p : PullRequestParams) (a : Article) (e : String),
      p.article = some a →
      fmtO a.json ("articles/" ++ slug ++ "/article.json") = .error e →
      buildTreeEntries fmtO slug p = .error ("error formatting json: " ++ e)) ∧
    (∀ (fmtO : Formatter) (slug : String) (p : PullRequestParams) (e : String),
      p.article = none → p.bodyHTML ≠ "" →
      fmtO p.bodyHTML ("articles/" ++ slug ++ "/article.html") = .error e →
      buildTreeEntries fmtO slug p =
        .error ("error formatting html: " ++ e ++ "\n\noffending html:\n" ++ p.bodyHTML) ∧
      p.bodyHTML.data <:+:
        ("error formatting html: " ++ e ++ "\n\noffending html:\n" ++ p.bodyHTML).data) ∧
    (∀ (fmtO : Formatter) (slug : String) (p : PullRequestParams) (e : String),
      p.article = none → p.bodyHTML = "" → p.articleJS ≠ "" →
      fmtO p.articleJS ("articles/" ++ slug ++ "/article.js") = .error e →
      buildTreeEntries fmtO slug p =
        .error ("error formatting javascript: " ++ e ++ "\n\noffending JS:\n" ++ p.articleJS) ∧
      p.articleJS.data <:+:
        ("error formatting javascript: " ++ e ++ "\n\noffending JS:\n" ++ p.articleJS).data) ∧
    (∀ (fmtO : Formatter) (slug : String) (p : PullRequestParams) (e : String),
      p.article = none → p.bodyHTML = "" → p.articleJS = "" → p.teaserGeoJSON ≠ "" →
      fmtO p.teaserGeoJSON ("articles/" ++ slug ++ "/teaser.geojson") = .error e →
      buildTreeEntries fmtO slug p = .error ("error formatting javascript: " ++ e)) ∧
    (∀ (fmtO : Formatter) (slug : String) (p : PullRequestParams) (e : String),
      p.article = none → p.bodyHTML = "" → p.articleJS = "" → p.teaserGeoJSON = "" →
      p.teaserJS ≠ "" →
      fmtO p.teaserJS ("articles/" ++ slug ++ "/teaser.js") = .error e →
      buildTreeEntries fmtO slug p = .error ("error formatting javascript: " ++ e)) ∧
    (∀ (fmtO : Formatter) (slug : String) (p : PullRequestParams) (a : Article)
       (cj e : String),
      p.article = some a → p.bodyHTML = "" → p.articleJS = "" → p.teaserGeoJSON = "" →
      p.teaserJS = "" → p.locations ≠ "" → a.geoJSONDatasets.head? = some "locations" →
      fmtO a.json ("articles/" ++ slug ++ "/article.json") = .ok cj →
      fmtO p.locations ("articles/" ++ slug ++ "/locations.geojson") = .error e →
      buildTreeEntries fmtO slug p = .error ("error formatting javascript: " ++ e)) ∧
    (∀ (host : Host) (fmtO : Formatter) (now slug : String)
       (opts : List PullRequestOption) (e : String),
      buildTreeEntries fmtO slug (buildParams opts) = .error e →
      ∀ c ∈ (createOrUpdateArticlePullRequest host fmtO now slug opts).2,
        ∀ b ents, c ≠ Call.createTree b ents) := by
  refine ⟨?_, ?_, ?_, ?_, ?_, ?_, ?_⟩
  · intro fmtO slug p a e ha hf
    simp [buildTreeEntries, ha, hf]
  · intro fmtO slug p e ha hne hf
    refine ⟨?_, ?_⟩
    · simp [buildTreeEntries, ha, buildHTMLStep, hne, hf]
    · refine ⟨("error formatting html: " ++ e ++ "\n\noffending html:\n").data, [], ?_⟩
      rw [List.append_nil, ← String.data_append]
  · intro fmtO slug p e ha hh hne hf
    refine ⟨?_, ?_⟩
    · simp [buildTreeEntries, ha, buildHTMLStep, hh, buildArticleJSStep, hne, hf]
    · refine ⟨("error formatting javascript: " ++ e ++ "\n\noffending JS:\n").data, [], ?_⟩
      rw [List.append_nil, ← String.data_append]
  · intro fmtO slug p e ha hh hj hne hf
    simp [buildTreeEntries, ha, buildHTMLStep, hh, buildArticleJSStep, hj,
      buildTeaserGeoStep, hne, hf]
  · intro fmtO slug p e ha hh hj hg hne hf
    simp [buildTreeEntries, ha, buildHTMLStep, hh, buildArticleJSStep, hj,
      buildTeaserGeoStep, hg, buildTeaserJSStep, hne, hf]
  · intro fmtO slug p a cj e ha hh hj hg ht hloc hds hfj hf
    simp [buildTreeEntries, ha, hfj, buildHTMLStep, hh, buildArticleJSStep, hj,
      buildTeaserGeoStep, hg, buildTeaserJSStep, ht, buildLocationsStep, hloc, hds, hf]
  · intro host fmtO now slug opts e hbuild c hc b ents
    rw [createOrUpdateArticlePullRequest] at hc
    split at hc
    · rename_i e1 calls hres
      refine resolveBranch_no_createTree host now (buildParams opts).prNum c ?_ b ents
      rw [hres]
      exact hc
    · rename_i ra prBranchRef activePR calls hres
      have hcap : (commitAndPR host fmtO slug (buildParams opts) prBranchRef activePR).2
          = [] := by
        rw [commitAndPR, hbuild]
      simp only [hcap, List.append_nil] at hc
      refine resolveBranch_no_createTree host now (buildParams opts).prNum c ?_ b ents
      rw [hres]
      exact hc

/-- Witness for the amended C8 at concrete formatters and params. -/
theorem formatError_spec_witness :
    buildTreeEntries teaserGeoFailFmt "s" teaserGeoOnlyParams =
      .error "error formatting javascript: gboom" ∧
    buildTreeEntries teaserFailFmt "s" teaserOnlyParams =
      .error "error formatting javascript: boom" ∧
    buildTreeEntries locFailFmt "s" locFailParams =
      .error "error formatting javascript: lboom" ∧
    Call.getRef "refs/heads/main" ≠ Call.createTree "mainsha" [] := by
  refine ⟨?_, ?_, ?_, ?_⟩
  · exact formatError_spec.2.2.2.1 teaserGeoFailFmt "s" teaserGeoOnlyParams "gboom"
      rfl rfl rfl (by decide) rfl
  · exact formatError_spec.2.2.2.2.1 teaserFailFmt "s" teaserOnlyParams "boom"
      rfl rfl rfl rfl (by decide) rfl
  · exact formatError_spec.2.2.2.2.2.1 locFailFmt "s" locFailParams locArticle
      "articlejson" "lboom" rfl rfl rfl rfl rfl (by decide) rfl rfl rfl
  · exact formatError_spec.2.2.2.2.2.2 okHost teaserFailFmt "20240101-000000" "s"
      [PullRequestOption.withTeaserJS "MARKER"] "error formatting javascript: boom" rfl
      (Call.getRef "refs/heads/main") (by decide) "mainsha" []

end Robots
